import Mathlib

/-!
# Verification of the Werkleitungs importer (`werkleitungs_importer.py`)

A shallow embedding of the record-validation and geometry-construction
pipeline of `WerkleitungsImporter`, together with theorems settling the
specification claims about it.

Modelling conventions:
* Spreadsheet cells are `CellVal` (a string, a number, or the missing
  marker NaN).  Coordinate cells are `Coord := Option ℚ`, where `none`
  models a missing value / `NaN`; IEEE comparisons against `NaN` are
  `false`, which the embedding reproduces explicitly.
* Machine floats are idealised as exact rationals.  The source's length
  check `line.length < 0.5` (a square root) is embedded as the exactly
  equivalent comparison of the squared length against `(1/2)^2`; the
  bridge to the Euclidean distance is proved with `Real.sqrt`.
* Exceptions raised inside the per-row `try` block of
  `process_records` are embedded as `Except Err`; the German message
  strings of the source are represented by the constructors of `Msg`
  and `Err`, each carrying the data interpolated into the message.
* The wall clock (`datetime.now()`), the Excel reader, the database
  connection and the database write are external collaborators; they
  enter the embedding as parameters (`now`, `ReadResult`, `connectOk`,
  `writeOk`).
-/

namespace Werkleitung

/-- A coordinate cell: `none` models a missing value / IEEE `NaN`
(pandas reads an empty numeric cell as `NaN`). -/
abbrev Coord : Type := Option ℚ

/-- A general spreadsheet cell value as seen by `process_records`:
a text cell, a numeric cell, or the missing marker (`NaN`). -/
inductive CellVal : Type
  | str (s : String)
  | num (q : ℚ)
  | nan
deriving DecidableEq, Repr

/-- The message part of `validate_coordinates`'s return value.
`xOutside x` stands for the string
`f"X-Koordinate {x} außerhalb Schweizer Bereich"` (it mentions only the
x value, never y); `yOutside y` for the corresponding Y message;
`ok` for `"OK"`. -/
inductive Msg : Type
  | ok
  | xOutside (x : Coord)
  | yOutside (y : Coord)
deriving DecidableEq, Repr

/-- The Python chained comparison `lo <= v <= hi` on a float cell:
`false` whenever the value is `NaN`/missing (IEEE comparison semantics),
otherwise the inclusive range test. -/
def in_range (lo hi : ℚ) (c : Coord) : Bool :=
  match c with
  | some v => decide (lo ≤ v) && decide (v ≤ hi)
  | none => false

/-- `WerkleitungsImporter.validate_coordinates` (source lines 48–57):
checks the Swiss LV95 envelope, X ∈ [2480000, 2840000] first, then
Y ∈ [1070000, 1300000], returning `(False, message)` at the first
failing axis and `(True, "OK")` otherwise. -/
def validate_coordinates (x y : Coord) : Bool × Msg :=
  if !(in_range 2480000 2840000 x) then (false, Msg.xOutside x)
  else if !(in_range 1070000 1300000 y) then (false, Msg.yOutside y)
  else (true, Msg.ok)

/-- A shapely `LineString([(x_start, y_start), (x_end, y_end)])`:
exactly two vertices, in construction order. -/
structure Line : Type where
  p_start : Coord × Coord
  p_end : Coord × Coord
deriving DecidableEq, Repr

/-- The squared Euclidean length of a two-vertex line; `none` models the
`NaN` that float arithmetic produces when a vertex is `NaN`. -/
def lengthSq (l : Line) : Option ℚ :=
  match l.p_start, l.p_end with
  | (some x1, some y1), (some x2, some y2) =>
      some ((x2 - x1) ^ 2 + (y2 - y1) ^ 2)
  | _, _ => none

/-- IEEE `<` against a possibly-`NaN` left operand: `NaN < b` is `false`. -/
def ltNaN (a : Option ℚ) (b : ℚ) : Bool :=
  match a with
  | some v => decide (v < b)
  | none => false

/-- The square of the 0.5-unit minimum length of source line 76. -/
def min_len_sq : ℚ := (1 / 2) ^ 2

/-- The exceptions raised inside the per-row `try` block, each constructor
standing for the corresponding `str(e)` message text. -/
inductive Err : Type
  | startpunkt (m : Msg)      -- `f"Startpunkt ungültig: {msg_start}"`
  | endpunkt (m : Msg)        -- `f"Endpunkt ungültig: {msg_end}"`
  | zuKurz (lsq : Option ℚ)   -- `f"Leitung zu kurz ({line.length:.2f}m), ..."`
  | intErr (v : CellVal)      -- `ValueError`/`TypeError` from `int(...)`
  | dateErr (v : CellVal)     -- parse error from `pd.to_datetime(...)`
deriving DecidableEq, Repr

/-- `WerkleitungsImporter.create_line_geometry` (source lines 59–79):
validates both endpoints (computing both messages before raising, start
checked first), builds the `LineString`, and rejects a line of length
below 0.5.  The float check `line.length < 0.5` is embedded as the
exactly equivalent squared comparison `lengthSq < (1/2)^2`, with IEEE
`NaN < 0.5 = false` preserved by `ltNaN`. -/
def create_line_geometry (x_start y_start x_end y_end : Coord) :
    Except Err Line :=
  let vs := validate_coordinates x_start y_start
  let ve := validate_coordinates x_end y_end
  if !vs.1 then Except.error (Err.startpunkt vs.2)
  else if !ve.1 then Except.error (Err.endpunkt ve.2)
  else
    let line : Line := ⟨(x_start, y_start), (x_end, y_end)⟩
    if ltNaN (lengthSq line) min_len_sq then
      Except.error (Err.zuKurz (lengthSq line))
    else Except.ok line

/-- Truncation toward zero, the semantics of Python's `int()` on a
numeric value: floor for non-negative values, ceiling for negative
ones (`int(150.9) = 150`, `int(-3.7) = -3`). -/
def int_trunc (q : ℚ) : ℤ :=
  q.num.tdiv q.den

/-- Reads a non-empty all-digit character sequence as a number. -/
def digits_nat? (cs : List Char) : Option ℕ :=
  if cs ≠ [] ∧ cs.all Char.isDigit then
    some (cs.foldl (fun n c => 10 * n + (c.toNat - 48)) 0)
  else none

/-- Python's `int(str)` on a text cell: leading/trailing whitespace is
tolerated, then an optional sign followed by at least one decimal digit;
anything else (for example `"150.9"` or `"abc"`) raises `ValueError`. -/
def parse_int_string (s : String) : Option ℤ :=
  let t := ((s.data.dropWhile Char.isWhitespace).reverse.dropWhile
    Char.isWhitespace).reverse
  match t with
  | '-' :: core => (digits_nat? core).map (fun n => -(n : ℤ))
  | '+' :: core => (digits_nat? core).map (fun n => (n : ℤ))
  | core => (digits_nat? core).map (fun n => (n : ℤ))

/-- `int(row['Durchmesser_mm'])` (source line 129): a numeric cell is
truncated toward zero, an integral text cell is parsed, `NaN` and
non-numeric text raise (`none`). -/
def int_coerce : CellVal → Option ℤ
  | CellVal.num q => some (int_trunc q)
  | CellVal.str s => parse_int_string s
  | CellVal.nan => none

/-- A parsed calendar date (proleptic Gregorian). -/
structure Date : Type where
  year : ℕ
  month : ℕ
  day : ℕ
deriving DecidableEq, Repr

/-- Gregorian leap-year rule. -/
def is_leap (y : ℕ) : Bool :=
  (y % 4 == 0 && y % 100 != 0) || y % 400 == 0

/-- Number of days of a month (month numbered 1–12). -/
def days_in_month (y m : ℕ) : ℕ :=
  if m = 2 then (if is_leap y then 29 else 28)
  else if m = 4 ∨ m = 6 ∨ m = 9 ∨ m = 11 then 30
  else 31

/-- Calendar validity of a year/month/day triple. -/
def valid_date (y m d : ℕ) : Bool :=
  1 ≤ m && m ≤ 12 && 1 ≤ d && d ≤ days_in_month y m

/-- Splits a character sequence at every occurrence of `sep`. -/
def split_on_char (sep : Char) : List Char → List (List Char)
  | [] => [[]]
  | c :: rest =>
    let r := split_on_char sep rest
    if c = sep then [] :: r
    else
      match r with
      | h :: t => (c :: h) :: t
      | [] => [[c]]

/-- Splits a candidate date string on a separator into three numeric
fields. -/
def split3 (sep : Char) (s : String) : Option (ℕ × ℕ × ℕ) :=
  match (split_on_char sep s.data).map digits_nat? with
  | [some a, some b, some c] => some (a, b, c)
  | _ => none

/-- Date-string parsing as performed by `pd.to_datetime` on the formats
this repository's data uses: ISO `YYYY-MM-DD`, or dotted `DD.MM.YYYY`;
the parse fails unless the fields form a valid calendar date (so
`"32.13.2020"` raises). -/
def parse_date_string (s : String) : Option Date :=
  match split3 '-' s with
  | some (y, m, d) => if valid_date y m d then some ⟨y, m, d⟩ else none
  | none =>
    match split3 '.' s with
    | some (d, m, y) => if valid_date y m d then some ⟨y, m, d⟩ else none
    | none => none

/-- The value produced by `pd.to_datetime` on success. -/
inductive DateVal : Type
  | nat                -- `NaT`: `pd.to_datetime(NaN)` does not raise
  | dt (d : Date)      -- a parsed date string
  | fromNum (q : ℚ)    -- a numeric cell, read as an epoch offset
deriving DecidableEq, Repr

/-- `pd.to_datetime(row['Verlegedatum'])` (source line 130): a missing
value yields `NaT` without raising, a numeric cell is interpreted as an
epoch offset, and a text cell must parse as a calendar date or the call
raises (`none`). -/
def to_datetime : CellVal → Option DateVal
  | CellVal.nan => some DateVal.nat
  | CellVal.num q => some (DateVal.fromNum q)
  | CellVal.str s => (parse_date_string s).map DateVal.dt

/-- One spreadsheet row as handed to `process_records` by
`df.iterrows()` after `read_excel` has checked that all nine required
columns are present (so every field exists; its value may still be the
missing marker). -/
structure RawRow : Type where
  leitung_id : CellVal
  material : CellVal
  durchmesser_mm : CellVal
  x_start : Coord
  y_start : Coord
  x_end : Coord
  y_end : Coord
  verlegedatum : CellVal
  bemerkung : CellVal
deriving DecidableEq, Repr

/-- `row['Bemerkung'] if pd.notna(row['Bemerkung']) else ''`
(source line 131). -/
def bemerkung_val : CellVal → CellVal
  | CellVal.nan => CellVal.str ""
  | v => v

/-- One validated record as appended to `valid_records`
(source lines 126–135). -/
structure ValidRecord : Type where
  leitung_id : CellVal
  material : CellVal
  durchmesser : ℤ
  verlegedatum : DateVal
  bemerkung : CellVal
  geometry : Line
  import_datum : ℕ
deriving DecidableEq, Repr

/-- The body of the per-row `try` block of `process_records`
(source lines 118–135): build the geometry, then evaluate the record
dict left to right — `int(row['Durchmesser_mm'])` before
`pd.to_datetime(row['Verlegedatum'])` — raising at the first failure.
`now` models `datetime.now()`. -/
def validate_row (now : ℕ) (row : RawRow) : Except Err ValidRecord := do
  let geom ← create_line_geometry row.x_start row.y_start row.x_end row.y_end
  let d ← match int_coerce row.durchmesser_mm with
    | some d => Except.ok d
    | none => Except.error (Err.intErr row.durchmesser_mm)
  let vd ← match to_datetime row.verlegedatum with
    | some v => Except.ok v
    | none => Except.error (Err.dateErr row.verlegedatum)
  Except.ok
    { leitung_id := row.leitung_id
      material := row.material
      durchmesser := d
      verlegedatum := vd
      bemerkung := bemerkung_val row.bemerkung
      geometry := geom
      import_datum := now }

/-- One entry of `self.error_records` (source lines 138–142):
`zeile = idx + 2`, `leitung_id = row.get('Leitung_ID', 'UNBEKANNT')`
— the `Leitung_ID` column always exists in a frame that passed
`read_excel`, and `Series.get` returns the stored value (possibly the
missing marker) whenever the label exists, so the recorded identifier is
the raw cell value — and `fehler = str(e)`. -/
structure ErrorInfo : Type where
  zeile : ℕ
  leitung_id : CellVal
  fehler : Err
deriving DecidableEq, Repr

/-- The `for idx, row in df.iterrows()` loop of `process_records`
(source lines 117–144), with `idx` the default `RangeIndex` position
starting at `i`: each row either extends the valid list or appends an
`ErrorInfo` built from `idx + 2`, the row's identifier cell and the
caught exception, and the loop always continues with the next row. -/
def process_go (now : ℕ) : ℕ → List RawRow → List ValidRecord × List ErrorInfo
  | _, [] => ([], [])
  | i, row :: rest =>
    let tail := process_go now (i + 1) rest
    match validate_row now row with
    | Except.ok r => (r :: tail.1, tail.2)
    | Except.error e => (tail.1, ⟨i + 2, row.leitung_id, e⟩ :: tail.2)

/-- `WerkleitungsImporter.process_records` (source lines 111–152):
starts from the importer's current `self.error_records` (`errs0`,
appended to — the method never resets it) and returns the
`GeoDataFrame` of valid records together with the new accumulator
state. -/
def process_records (errs0 : List ErrorInfo) (now : ℕ) (df : List RawRow) :
    List ValidRecord × List ErrorInfo :=
  let res := process_go now 0 df
  (res.1, errs0 ++ res.2)

/-- A token of shapely's well-known-text output (`line.wkt`,
used at source line 192).  The embedding works at the token level; the
lexical float formatting inside a `num` token is out of scope. -/
inductive WktToken : Type
  | ident (s : String)
  | lparen
  | rparen
  | comma
  | num (q : ℚ)
  | nanTok
deriving DecidableEq, Repr

/-- One coordinate as it appears inside the WKT text. -/
def coord_token (c : Coord) : WktToken :=
  match c with
  | some q => WktToken.num q
  | none => WktToken.nanTok

/-- `line.wkt` for a two-vertex `LineString`:
`LINESTRING (x1 y1, x2 y2)` with the vertices in stored order. -/
def line_wkt (l : Line) : List WktToken :=
  [WktToken.ident "LINESTRING", WktToken.lparen,
   coord_token l.p_start.1, coord_token l.p_start.2, WktToken.comma,
   coord_token l.p_end.1, coord_token l.p_end.2, WktToken.rparen]

/-- Reads the comma-separated coordinate pairs of a WKT body up to the
closing parenthesis (the parser a WKT consumer such as
`ST_GeomFromText` applies to the body of a `LINESTRING`). -/
def parse_points : List WktToken → Option (List (ℚ × ℚ))
  | WktToken.num x :: WktToken.num y :: WktToken.rparen :: [] =>
      some [(x, y)]
  | WktToken.num x :: WktToken.num y :: WktToken.comma :: rest => do
      let tail ← parse_points rest
      pure ((x, y) :: tail)
  | _ => none

/-- Re-parses a serialized `LINESTRING`: the tag, an opening
parenthesis, then the coordinate pairs. -/
def parse_linestring (ts : List WktToken) : Option (List (ℚ × ℚ)) :=
  match ts with
  | WktToken.ident "LINESTRING" :: WktToken.lparen :: rest =>
      parse_points rest
  | _ => none

/-- The result of `read_excel` (source lines 81–109) as seen by
`run_import`: `fail` models the `None` returned both for an unreadable
file and for missing required columns, `ok df` a frame with all nine
required columns. -/
inductive ReadResult : Type
  | fail
  | ok (df : List RawRow)
deriving DecidableEq, Repr

/-- The encoding passed to `error_df.to_csv` (source line 218);
`utf-8-sig` preserves non-ASCII characters. -/
inductive Encoding : Type
  | utf8sig
deriving DecidableEq, Repr

/-- The error-report file written by `save_error_report`
(source lines 209–219): one row per `ErrorInfo` (row number,
identifier, reason), UTF-8 with signature. -/
structure Report : Type where
  path : String
  rows : List ErrorInfo
  encoding : Encoding
deriving DecidableEq, Repr

/-- `WerkleitungsImporter.save_error_report` (source lines 209–219):
returns without writing anything when the accumulator is empty,
otherwise writes all accumulated entries as CSV in `utf-8-sig`. -/
def save_error_report (errors : List ErrorInfo) (output_path : String) :
    Option Report :=
  if errors.isEmpty then none
  else some ⟨output_path, errors, Encoding.utf8sig⟩

/-- `self.error_records = []` in `__init__` (source line 36): the
accumulator of a freshly constructed importer. -/
def init_error_records : List ErrorInfo := []

/-- Everything observable about one `run_import` call. -/
structure RunOutcome : Type where
  success : Bool
  /-- the batch handed to `write_to_database`, `none` if never called -/
  written : Option (List ValidRecord)
  /-- the error-report file, `none` if `save_error_report` was not
  reached or had nothing to write -/
  report : Option Report
  /-- `self.error_records` after the call -/
  final_errors : List ErrorInfo
deriving DecidableEq, Repr

/-- `WerkleitungsImporter.run_import` (source lines 221–257), starting
from accumulator state `errs0`: read the file (abort on `None`),
process the records, abort with failure when no valid record remains
(`gdf.empty`), abort when `connect_db` fails, call
`write_to_database` (its result `writeOk` becomes `success`), then
derive the report path with `excel_path.replace('.xlsx',
'_fehler.csv')` and call `save_error_report` — also when the write
failed. -/
def run_import (errs0 : List ErrorInfo) (now : ℕ) (excel_path : String)
    (read : ReadResult) (connectOk writeOk : Bool) : RunOutcome :=
  match read with
  | ReadResult.fail => ⟨false, none, none, errs0⟩
  | ReadResult.ok df =>
    let res := process_records errs0 now df
    if res.1.isEmpty then ⟨false, none, none, res.2⟩
    else if !connectOk then ⟨false, none, none, res.2⟩
    else
      let error_file := excel_path.replace ".xlsx" "_fehler.csv"
      ⟨writeOk, some res.1, save_error_report res.2 error_file, res.2⟩

/-! ## Derived gate predicates

Named acceptance conditions, each phrased through the embedded source
functions, used to state the claims. -/

/-- The two-vertex line a row describes. -/
def row_line (row : RawRow) : Line :=
  ⟨(row.x_start, row.y_start), (row.x_end, row.y_end)⟩

/-- Gate: both endpoints pass `validate_coordinates`. -/
def gate_coords (row : RawRow) : Bool :=
  (validate_coordinates row.x_start row.y_start).1 &&
    (validate_coordinates row.x_end row.y_end).1

/-- Gate: the minimum-length check `line.length < 0.5` does not fire. -/
def gate_length (row : RawRow) : Bool :=
  !(ltNaN (lengthSq (row_line row)) min_len_sq)

/-- Gate: `int(row['Durchmesser_mm'])` does not raise. -/
def gate_diam (row : RawRow) : Bool :=
  (int_coerce row.durchmesser_mm).isSome

/-- Gate: `pd.to_datetime(row['Verlegedatum'])` does not raise. -/
def gate_date (row : RawRow) : Bool :=
  (to_datetime row.verlegedatum).isSome

/-- The acceptance condition in the words of claim C2: "all three gates
pass: both endpoints lie in the plausible coordinate envelope, the line
length is at least 0.5 units, and the installation-date string parses as
a calendar date". -/
def claim_three_gates (row : RawRow) : Bool :=
  gate_coords row && gate_length row && gate_date row

/-! ## Concrete example data -/

/-- A valid example row: Scenario A geometry, ISO date, numeric
diameter. -/
def row_ok : RawRow :=
  { leitung_id := CellVal.str "L_00001"
    material := CellVal.str "PE"
    durchmesser_mm := CellVal.num 150
    x_start := some 2683000
    y_start := some 1248000
    x_end := some 2683100
    y_end := some 1248100
    verlegedatum := CellVal.str "2020-01-15"
    bemerkung := CellVal.nan }

/-- The validated record `row_ok` yields at `now = 0`. -/
def rec_ok : ValidRecord :=
  { leitung_id := CellVal.str "L_00001"
    material := CellVal.str "PE"
    durchmesser := 150
    verlegedatum := DateVal.dt ⟨2020, 1, 15⟩
    bemerkung := CellVal.str ""
    geometry := ⟨(some 2683000, some 1248000), (some 2683100, some 1248100)⟩
    import_datum := 0 }

/-- Valid geometry and date, but the diameter cell holds the
non-numeric text "abc". -/
def row_bad_diam : RawRow :=
  { row_ok with durchmesser_mm := CellVal.str "abc" }

/-- X_Start = 1000000, far outside the envelope (Scenario C). -/
def row_bad_coord : RawRow :=
  { row_ok with leitung_id := CellVal.str "L_ERR01", x_start := some 1000000 }

/-- A failing row whose identifier cell is the missing marker. -/
def row_nan_id : RawRow :=
  { row_bad_coord with leitung_id := CellVal.nan }

/-- An unparseable installation date (Scenario E). -/
def row_bad_date : RawRow :=
  { row_ok with
    leitung_id := CellVal.str "L_ERR04"
    verlegedatum := CellVal.str "32.13.2020" }

/-- Fractional numeric diameter 150.9. -/
def row_frac : RawRow :=
  { row_ok with durchmesser_mm := CellVal.num (1509 / 10) }

/-! ## Helper lemmas -/

theorem row_ok_eval : validate_row 0 row_ok = Except.ok rec_ok := by
  with_unfolding_all rfl

theorem validate_row_ok_iff (now : ℕ) (row : RawRow) :
    (validate_row now row).isOk =
      (gate_coords row && gate_length row && gate_diam row && gate_date row) := by
  unfold validate_row create_line_geometry gate_coords gate_length gate_diam
    gate_date row_line
  cases h1 : (validate_coordinates row.x_start row.y_start).1 <;>
    cases h2 : (validate_coordinates row.x_end row.y_end).1 <;>
      cases h3 : ltNaN (lengthSq ⟨(row.x_start, row.y_start), (row.x_end, row.y_end)⟩)
          min_len_sq <;>
        cases h4 : int_coerce row.durchmesser_mm <;>
          cases h5 : to_datetime row.verlegedatum <;>
            simp [h1, h2, h3, h4, h5, bind, Except.bind, Except.isOk, Except.toBool]

/-- Full case analysis of the per-row `try` block: the first failing
check in code order — start plausibility, end plausibility, minimum
length, diameter coercion, date parse — determines the exception, and
when none fails the record is built. -/
theorem validate_row_eq (now : ℕ) (row : RawRow) :
    validate_row now row =
      if ¬(validate_coordinates row.x_start row.y_start).1 then
        Except.error (Err.startpunkt (validate_coordinates row.x_start row.y_start).2)
      else if ¬(validate_coordinates row.x_end row.y_end).1 then
        Except.error (Err.endpunkt (validate_coordinates row.x_end row.y_end).2)
      else if ltNaN (lengthSq (row_line row)) min_len_sq then
        Except.error (Err.zuKurz (lengthSq (row_line row)))
      else
        match int_coerce row.durchmesser_mm with
        | none => Except.error (Err.intErr row.durchmesser_mm)
        | some d =>
          match to_datetime row.verlegedatum with
          | none => Except.error (Err.dateErr row.verlegedatum)
          | some vd =>
            Except.ok
              { leitung_id := row.leitung_id
                material := row.material
                durchmesser := d
                verlegedatum := vd
                bemerkung := bemerkung_val row.bemerkung
                geometry := row_line row
                import_datum := now } := by
  unfold validate_row create_line_geometry row_line
  cases h1 : (validate_coordinates row.x_start row.y_start).1 <;>
    cases h2 : (validate_coordinates row.x_end row.y_end).1 <;>
      cases h3 : ltNaN (lengthSq ⟨(row.x_start, row.y_start), (row.x_end, row.y_end)⟩)
          min_len_sq <;>
        cases h4 : int_coerce row.durchmesser_mm <;>
          cases h5 : to_datetime row.verlegedatum <;>
            simp [h1, h2, h3, h4, h5, bind, Except.bind]

theorem process_go_length (now : ℕ) (i : ℕ) (df : List RawRow) :
    (process_go now i df).1.length + (process_go now i df).2.length = df.length := by
  induction df generalizing i with
  | nil => simp [process_go]
  | cons row rest ih =>
    unfold process_go
    cases h : validate_row now row <;>
      simp [h, ← ih (i + 1)] <;> omega

theorem process_go_append (now : ℕ) (i : ℕ) (df1 df2 : List RawRow) :
    process_go now i (df1 ++ df2) =
      ((process_go now i df1).1 ++ (process_go now (i + df1.length) df2).1,
       (process_go now i df1).2 ++ (process_go now (i + df1.length) df2).2) := by
  induction df1 generalizing i with
  | nil => simp [process_go]
  | cons row rest ih =>
    simp only [List.cons_append, process_go]
    cases h : validate_row now row <;>
      simp [h, ih (i + 1), Nat.add_assoc, Nat.add_comm 1 rest.length]

theorem process_go_errors_mem (now : ℕ) (k : ℕ) (df : List RawRow)
    (e : ErrorInfo) :
    e ∈ (process_go now k df).2 ↔
      ∃ i : Fin df.length, e.zeile = k + i.1 + 2 ∧
        e.leitung_id = (df.get i).leitung_id ∧
        validate_row now (df.get i) = Except.error e.fehler := by
  induction df generalizing k with
  | nil => simp [process_go]
  | cons row rest ih =>
    unfold process_go
    cases h : validate_row now row with
    | ok r =>
      simp only [h, ih (k + 1)]
      constructor
      · rintro ⟨i, hz, hl, hv⟩
        exact ⟨i.succ, by simpa [Nat.add_assoc, Nat.add_comm 1 i.1] using hz,
          by simpa using hl, by simpa using hv⟩
      · rintro ⟨i, hz, hl, hv⟩
        rcases i with ⟨iv, hlt⟩
        cases iv with
        | zero =>
          exfalso
          simp at hl hv hz
          rw [hv] at h
          cases h
        | succ j =>
          refine ⟨⟨j, by simpa using hlt⟩, ?_, ?_, ?_⟩
          · simpa [Nat.add_assoc, Nat.add_comm 1 j] using hz
          · simpa using hl
          · simpa using hv
    | error err =>
      simp only [h, List.mem_cons, ih (k + 1)]
      constructor
      · rintro (rfl | ⟨i, hz, hl, hv⟩)
        · exact ⟨⟨0, by simp⟩, by simp, by simp, by simp [h]⟩
        · exact ⟨i.succ, by simpa [Nat.add_assoc, Nat.add_comm 1 i.1] using hz,
            by simpa using hl, by simpa using hv⟩
      · rintro ⟨i, hz, hl, hv⟩
        rcases i with ⟨iv, hlt⟩
        cases iv with
        | zero =>
          left
          simp at hz hl hv
          rw [hv] at h
          cases h
          cases e
          simp_all
        | succ j =>
          right
          refine ⟨⟨j, by simpa using hlt⟩, ?_, ?_, ?_⟩
          · simpa [Nat.add_assoc, Nat.add_comm 1 j] using hz
          · simpa using hl
          · simpa using hv

/-- Bridge between the embedded squared-length check and the Euclidean
distance of the claims: for the straight-line distance `√d`,
`0.5 ≤ √d` holds exactly when `min_len_sq ≤ d`. -/
theorem half_le_sqrt_iff (d : ℚ) :
    (1 / 2 : ℝ) ≤ Real.sqrt (d : ℝ) ↔ min_len_sq ≤ d := by
  rw [Real.le_sqrt' (by norm_num : (0 : ℝ) < 1 / 2)]
  rw [show ((1 : ℝ) / 2) ^ 2 = ((min_len_sq : ℚ) : ℝ) by norm_num [min_len_sq]]
  exact Rat.cast_le

/-- `int_trunc` is truncation toward zero: floor on non-negative
values, ceiling on negative ones. -/
theorem int_trunc_eq (q : ℚ) : int_trunc q = if 0 ≤ q then ⌊q⌋ else ⌈q⌉ := by
  unfold int_trunc
  by_cases h : 0 ≤ q
  · rw [if_pos h, Rat.floor_def]
    exact Int.tdiv_eq_ediv (Rat.num_nonneg.mpr h) (Int.ofNat_nonneg _)
  · rw [if_neg h]
    have h' : 0 ≤ -q := by linarith [lt_of_not_ge h]
    have hfl : (-q).num.tdiv (-q).den = ⌊-q⌋ := by
      rw [Rat.floor_def]
      exact Int.tdiv_eq_ediv (Rat.num_nonneg.mpr h') (Int.ofNat_nonneg _)
    rw [Rat.neg_num, Rat.neg_den, Int.floor_neg, Int.neg_tdiv] at hfl
    omega

/-! ## Claims -/

/-- C1: for every input batch processed in one run starting with an
empty error accumulator, every raw record yields exactly one outcome —
a validated segment or a validation error, never both and never
neither — so the number of validated segments plus the number of
validation errors equals the number of raw records exactly. -/
theorem C1_partition (now : ℕ) (df : List RawRow) :
    (process_records [] now df).1.length +
      (process_records [] now df).2.length = df.length := by
  unfold process_records
  simpa using process_go_length now 0 df

/-- C3: the plausibility check passes exactly when x lies in
[2480000, 2840000] and y lies in [1070000, 1300000]; an out-of-range x
fails with the x-axis message (which carries only x, and y is not
additionally checked); an in-range x with an out-of-range y fails with
the y-axis message; a missing/NaN coordinate fails the check. -/
theorem C3_plausibility (x y : Coord) :
    ((validate_coordinates x y).1 = true ↔
      (∃ a, x = some a ∧ 2480000 ≤ a ∧ a ≤ 2840000) ∧
      (∃ b, y = some b ∧ 1070000 ≤ b ∧ b ≤ 1300000)) ∧
    (in_range 2480000 2840000 x = false →
      validate_coordinates x y = (false, Msg.xOutside x)) ∧
    (in_range 2480000 2840000 x = true →
      in_range 1070000 1300000 y = false →
      validate_coordinates x y = (false, Msg.yOutside y)) ∧
    ((x = none ∨ y = none) → (validate_coordinates x y).1 = false) := by
  have hx' : in_range 2480000 2840000 x = true ↔
      ∃ a, x = some a ∧ 2480000 ≤ a ∧ a ≤ 2840000 := by
    cases x <;> simp [in_range]
  have hy' : in_range 1070000 1300000 y = true ↔
      ∃ b, y = some b ∧ 1070000 ≤ b ∧ b ≤ 1300000 := by
    cases y <;> simp [in_range]
  have hfst : (validate_coordinates x y).1 =
      (in_range 2480000 2840000 x && in_range 1070000 1300000 y) := by
    unfold validate_coordinates
    by_cases hx : in_range 2480000 2840000 x <;>
      by_cases hy : in_range 1070000 1300000 y <;> simp [hx, hy]
  refine ⟨?_, ?_, ?_, ?_⟩
  · rw [hfst]
    simp only [Bool.and_eq_true, hx', hy']
  · intro hx
    simp [validate_coordinates, hx]
  · intro hx hy
    simp [validate_coordinates, hx, hy]
  · rintro (rfl | rfl) <;> rw [hfst] <;> simp [in_range]

/-- C3 witness: x = 1000000 is rejected with the x-axis reason, and a
missing x coordinate fails the check. -/
theorem C3_plausibility_witness :
    validate_coordinates (some 1000000) (some 1200000) =
      (false, Msg.xOutside (some 1000000)) ∧
    (validate_coordinates none (some 1200000)).1 = false :=
  ⟨(C3_plausibility (some 1000000) (some 1200000)).2.1
      (by with_unfolding_all decide),
    (C3_plausibility none (some 1200000)).2.2.2 (Or.inl rfl)⟩

/-- C4: for plausibility-valid endpoints, geometry construction succeeds
exactly when the Euclidean distance between the two points is at least
0.5 units; for any distance strictly below 0.5 (including identical
points) it fails with the minimum-length reason. -/
theorem C4_min_length (x1 y1 x2 y2 : ℚ)
    (hs : (validate_coordinates (some x1) (some y1)).1 = true)
    (he : (validate_coordinates (some x2) (some y2)).1 = true) :
    ((∃ l, create_line_geometry (some x1) (some y1) (some x2) (some y2) =
        Except.ok l) ↔
      (1 / 2 : ℝ) ≤ Real.sqrt (((x2 - x1) ^ 2 + (y2 - y1) ^ 2 : ℚ) : ℝ)) ∧
    (Real.sqrt (((x2 - x1) ^ 2 + (y2 - y1) ^ 2 : ℚ) : ℝ) < 1 / 2 →
      create_line_geometry (some x1) (some y1) (some x2) (some y2) =
        Except.error (Err.zuKurz (some ((x2 - x1) ^ 2 + (y2 - y1) ^ 2)))) := by
  have hb := half_le_sqrt_iff ((x2 - x1) ^ 2 + (y2 - y1) ^ 2)
  unfold create_line_geometry
  simp only [hs, he, Bool.not_true, Bool.false_eq_true, if_false, lengthSq, ltNaN]
  by_cases hlt : (x2 - x1) ^ 2 + (y2 - y1) ^ 2 < min_len_sq
  · refine ⟨?_, ?_⟩
    · simp only [hlt, decide_eq_true_eq, if_pos]
      constructor
      · rintro ⟨l, hl⟩
        cases hl
      · intro hsq
        exact absurd (hb.mp hsq) (not_le.mpr hlt)
    · intro _
      simp [hlt]
  · refine ⟨?_, ?_⟩
    · simp only [hlt, decide_eq_true_eq, if_neg, not_false_eq_true]
      constructor
      · intro _
        exact hb.mpr (not_lt.mp hlt)
      · intro _
        exact ⟨_, rfl⟩
    · intro hsq
      exact absurd (hb.mpr (not_lt.mp hlt)) (not_le.mpr hsq)

/-- C4 witness: the endpoints (2683000, 1248000) and (2683100, 1248100)
are plausibility-valid and the equivalence holds there. -/
theorem C4_min_length_witness :
    (validate_coordinates (some 2683000) (some 1248000)).1 = true ∧
    (validate_coordinates (some 2683100) (some 1248100)).1 = true ∧
    ((∃ l, create_line_geometry (some 2683000) (some 1248000)
        (some 2683100) (some 1248100) = Except.ok l) ↔
      (1 / 2 : ℝ) ≤ Real.sqrt
        (((2683100 - 2683000 : ℚ) ^ 2 + (1248100 - 1248000 : ℚ) ^ 2 : ℚ) : ℝ)) :=
  ⟨by with_unfolding_all decide, by with_unfolding_all decide,
    (C4_min_length 2683000 1248000 2683100 1248100
      (by with_unfolding_all decide) (by with_unfolding_all decide)).1⟩

/-- C2 counterexample: `row_bad_diam` passes all three gates named by
the claim — both endpoints in the envelope, length ≥ 0.5, parseable
date — yet it is not accepted: the claim's "if and only if" fails
because `int(row['Durchmesser_mm'])` raises on the text "abc". -/
theorem C2_counterexample :
    claim_three_gates row_bad_diam = true ∧
    validate_row 0 row_bad_diam =
      Except.error (Err.intErr (CellVal.str "abc")) :=
  ⟨by with_unfolding_all decide, by with_unfolding_all rfl⟩

/-- C2 (amended): a record is accepted iff all three gates named by the
claim pass AND the diameter cell is integer-coercible (the code's
fourth gate, evaluated between the length check and the date parse);
the failure reason is determined by whichever check fails first in code
order: start plausibility, end plausibility, minimum length, diameter
coercion, date parse. -/
theorem C2_amended (now : ℕ) (row : RawRow) :
    ((validate_row now row).isOk =
      (claim_three_gates row && gate_diam row)) ∧
    ((validate_coordinates row.x_start row.y_start).1 = false →
      validate_row now row = Except.error
        (Err.startpunkt (validate_coordinates row.x_start row.y_start).2)) ∧
    ((validate_coordinates row.x_start row.y_start).1 = true →
      (validate_coordinates row.x_end row.y_end).1 = false →
      validate_row now row = Except.error
        (Err.endpunkt (validate_coordinates row.x_end row.y_end).2)) ∧
    (gate_coords row = true → gate_length row = false →
      validate_row now row =
        Except.error (Err.zuKurz (lengthSq (row_line row)))) ∧
    (gate_coords row = true → gate_length row = true →
      gate_diam row = false →
      validate_row now row = Except.error (Err.intErr row.durchmesser_mm)) ∧
    (gate_coords row = true → gate_length row = true →
      gate_diam row = true → gate_date row = false →
      validate_row now row = Except.error (Err.dateErr row.verlegedatum)) := by
  refine ⟨?_, ?_, ?_, ?_, ?_, ?_⟩
  · rw [validate_row_ok_iff]
    unfold claim_three_gates
    cases gate_coords row <;> cases gate_length row <;>
      cases gate_diam row <;> cases gate_date row <;> rfl
  · intro h1
    rw [validate_row_eq]
    simp [h1]
  · intro h1 h2
    rw [validate_row_eq]
    simp [h1, h2]
  · intro hc hl
    rw [validate_row_eq]
    unfold gate_coords at hc
    unfold gate_length at hl
    simp only [Bool.and_eq_true] at hc
    simp at hl
    simp [hc.1, hc.2, hl]
  · intro hc hl hd
    rw [validate_row_eq]
    unfold gate_coords at hc
    unfold gate_length at hl
    unfold gate_diam at hd
    simp only [Bool.and_eq_true] at hc
    simp at hl hd
    simp [hc.1, hc.2, hl, hd]
  · intro hc hl hd hdate
    rw [validate_row_eq]
    unfold gate_coords at hc
    unfold gate_length at hl
    unfold gate_diam at hd
    unfold gate_date at hdate
    simp only [Bool.and_eq_true] at hc
    simp at hl hdate
    rw [Option.isSome_iff_exists] at hd
    obtain ⟨d, hd⟩ := hd
    simp [hc.1, hc.2, hl, hd, hdate]

/-- C2 witness: applying the amended claim to the out-of-envelope row
rejects it with the start-point reason (the first failing gate). -/
theorem C2_amended_witness :
    validate_row 0 row_bad_coord = Except.error
      (Err.startpunkt
        (validate_coordinates row_bad_coord.x_start row_bad_coord.y_start).2) :=
  (C2_amended 0 row_bad_coord).2.1 (by with_unfolding_all decide)

/-- C10: a numeric diameter cell is always integer-coercible, by
truncation toward zero (floor for non-negative values, ceiling for
negative ones — never rounding to nearest, never rejection), the stored
diameter of an accepted record is exactly that truncation, and a
rejection for the diameter reason never happens on a numeric value —
only a value that integer conversion cannot coerce at all produces the
diameter rejection. -/
theorem C10_diameter (now : ℕ) (row : RawRow) (q : ℚ)
    (h : row.durchmesser_mm = CellVal.num q) :
    int_coerce row.durchmesser_mm = some (int_trunc q) ∧
    int_trunc q = (if 0 ≤ q then ⌊q⌋ else ⌈q⌉) ∧
    (∀ r, validate_row now row = Except.ok r →
      r.durchmesser = int_trunc q) ∧
    (∀ e, validate_row now row = Except.error e →
      ∀ v, e ≠ Err.intErr v) := by
  refine ⟨by simp [int_coerce, h], int_trunc_eq q, ?_, ?_⟩
  · intro r hr
    rw [validate_row_eq] at hr
    split at hr
    · cases hr
    · split at hr
      · cases hr
      · split at hr
        · cases hr
        · rw [h] at hr
          simp only [int_coerce] at hr
          split at hr
          · cases hr
          · cases hr
            rfl
  · intro e he v
    rw [validate_row_eq] at he
    split at he
    · cases he
      simp
    · split at he
      · cases he
        simp
      · split at he
        · cases he
          simp
        · rw [h] at he
          simp only [int_coerce] at he
          split at he
          · cases he
            simp
          · cases he

/-- C10 witness: the diameter value 150.9 is coerced to 150 (truncated,
not rounded, not rejected). -/
theorem C10_diameter_witness :
    int_coerce row_frac.durchmesser_mm = some (int_trunc (1509 / 10)) ∧
    int_trunc (1509 / 10 : ℚ) = 150 ∧
    ∀ r, validate_row 0 row_frac = Except.ok r →
      r.durchmesser = int_trunc (1509 / 10) :=
  ⟨(C10_diameter 0 row_frac (1509 / 10) (by with_unfolding_all rfl)).1,
    by with_unfolding_all decide,
    (C10_diameter 0 row_frac (1509 / 10) (by with_unfolding_all rfl)).2.2.1⟩

/-- C5 counterexample: for a failing row whose identifier cell holds
the missing marker, the recorded error carries that raw missing marker
— not a sentinel string "UNKNOWN".  (The source's fallback
`row.get('Leitung_ID', 'UNBEKANNT')` fires only when the column label
itself is absent, which the required-column check precludes; a missing
value at an existing label is returned as-is.) -/
theorem C5_counterexample :
    (process_records [] 0 [row_nan_id]).2 =
      [⟨2, CellVal.nan, Err.startpunkt (Msg.xOutside (some 1000000))⟩] ∧
    CellVal.nan ≠ CellVal.str "UNKNOWN" :=
  ⟨by with_unfolding_all rfl, by decide⟩

/-- C5 (amended): every per-row failure is converted into an error
entry and processing continues — the batch decomposes row by row, no
failure aborts the loop — and each recorded error carries the 1-based
row number `i + 2`, the row's raw identifier cell value (which may
itself be the missing marker; no sentinel is substituted for a missing
value), and the caught failure reason. -/
theorem C5_amended (now : ℕ) (df : List RawRow) :
    (∀ i : Fin df.length, ∀ e,
      validate_row now (df.get i) = Except.error e →
        (⟨i.1 + 2, (df.get i).leitung_id, e⟩ : ErrorInfo) ∈
          (process_records [] now df).2) ∧
    (∀ err ∈ (process_records [] now df).2,
      ∃ i : Fin df.length, err.zeile = i.1 + 2 ∧
        err.leitung_id = (df.get i).leitung_id ∧
        validate_row now (df.get i) = Except.error err.fehler) ∧
    (∀ df2 : List RawRow,
      (process_records [] now (df ++ df2)).2 =
        (process_records [] now df).2 ++ (process_go now df.length df2).2) := by
  refine ⟨?_, ?_, ?_⟩
  · intro i e he
    unfold process_records
    simp only [List.nil_append]
    exact (process_go_errors_mem now 0 df _).mpr ⟨i, by simp, by simp, by simpa using he⟩
  · intro err herr
    unfold process_records at herr
    simp only [List.nil_append] at herr
    obtain ⟨i, hz, hl, hv⟩ := (process_go_errors_mem now 0 df err).mp herr
    exact ⟨i, by simpa using hz, hl, hv⟩
  · intro df2
    unfold process_records
    simp [process_go_append now 0 df df2]

/-- C5 witness: in the batch `[row_ok, row_bad_date]` the failing row at
zero-based index 1 is recorded as row number 3 with its identifier and
the date-parse reason, while processing continued past it. -/
theorem C5_amended_witness :
    (⟨3, CellVal.str "L_ERR04", Err.dateErr (CellVal.str "32.13.2020")⟩ :
        ErrorInfo) ∈ (process_records [] 0 [row_ok, row_bad_date]).2 :=
  (C5_amended 0 [row_ok, row_bad_date]).1 ⟨1, by decide⟩ _
    (by with_unfolding_all rfl)

/-- C6 counterexample: a run whose only row is invalid ends with a
non-empty error accumulator and yet produces no error report — the run
returns at the `gdf.empty` check before `save_error_report` is ever
reached, so "report produced exactly when the accumulator is non-empty"
fails. -/
theorem C6_counterexample :
    (run_import [] 0 "leitungen.xlsx" (ReadResult.ok [row_bad_coord])
      true true).report = none ∧
    (run_import [] 0 "leitungen.xlsx" (ReadResult.ok [row_bad_coord])
      true true).final_errors ≠ [] :=
  ⟨by with_unfolding_all rfl, by with_unfolding_all decide⟩

/-- C6 (amended): the error report is produced exactly when the
accumulator is non-empty AND the run reaches the reporting step, i.e.
at least one record validated and the database connection succeeded
(runs aborted earlier write no report even with a non-empty
accumulator); when produced, it is written to the path derived by
`excel_path.replace('.xlsx', '_fehler.csv')` in the non-ASCII-preserving
`utf-8-sig` encoding with one row per accumulated error, and the batch
write receives exactly the valid records. -/
theorem C6_amended (now : ℕ) (path : String) (df : List RawRow)
    (connectOk writeOk : Bool) :
    ((run_import [] now path (ReadResult.ok df) connectOk
        writeOk).report.isSome ↔
      (process_records [] now df).2 ≠ [] ∧
        (process_records [] now df).1 ≠ [] ∧ connectOk = true) ∧
    (∀ r, (run_import [] now path (ReadResult.ok df) connectOk
        writeOk).report = some r →
      r.path = path.replace ".xlsx" "_fehler.csv" ∧
        r.rows = (process_records [] now df).2 ∧
        r.encoding = Encoding.utf8sig) ∧
    ((process_records [] now df).1 ≠ [] → connectOk = true →
      (run_import [] now path (ReadResult.ok df) connectOk
        writeOk).written = some (process_records [] now df).1) := by
  by_cases hv : (process_records [] now df).1 = []
  · have hrun : run_import [] now path (ReadResult.ok df) connectOk writeOk =
        ⟨false, none, none, (process_records [] now df).2⟩ := by
      unfold run_import
      simp [List.isEmpty_iff, hv]
    rw [hrun]
    simp [hv]
  · cases connectOk with
    | false =>
      have hrun : run_import [] now path (ReadResult.ok df) false writeOk =
          ⟨false, none, none, (process_records [] now df).2⟩ := by
        unfold run_import
        simp [List.isEmpty_iff, hv]
      rw [hrun]
      simp [hv]
    | true =>
      have hrun : run_import [] now path (ReadResult.ok df) true writeOk =
          ⟨writeOk, some (process_records [] now df).1,
            save_error_report (process_records [] now df).2
              (path.replace ".xlsx" "_fehler.csv"),
            (process_records [] now df).2⟩ := by
        unfold run_import
        simp [List.isEmpty_iff, hv]
      rw [hrun]
      by_cases he : (process_records [] now df).2 = []
      · simp [save_error_report, he]
      · refine ⟨by simp [save_error_report, List.isEmpty_iff, he, hv], ?_,
          fun _ _ => rfl⟩
        intro r hr
        simp only [save_error_report, List.isEmpty_iff] at hr
        rw [if_neg (by simpa [List.isEmpty_iff] using he)] at hr
        cases hr
        exact ⟨rfl, rfl, rfl⟩

/-- C6 witness (Scenario F): a batch of 10 valid rows and 0 invalid
rows produces no report, and the batch write receives exactly the 10
validated segments. -/
theorem C6_amended_witness :
    (run_import [] 0 "test_klein_gueltig.xlsx"
        (ReadResult.ok (List.replicate 10 row_ok)) true true).report =
      none ∧
    (run_import [] 0 "test_klein_gueltig.xlsx"
        (ReadResult.ok (List.replicate 10 row_ok)) true true).written =
      some (process_records [] 0 (List.replicate 10 row_ok)).1 ∧
    (process_records [] 0 (List.replicate 10 row_ok)).1.length = 10 := by
  have hv : (process_records [] 0 (List.replicate 10 row_ok)).1 =
      List.replicate 10 rec_ok := by
    simp [process_records, process_go, List.replicate, row_ok_eval]
  have he : (process_records [] 0 (List.replicate 10 row_ok)).2 = [] := by
    simp [process_records, process_go, List.replicate, row_ok_eval]
  have h := C6_amended 0 "test_klein_gueltig.xlsx"
    (List.replicate 10 row_ok) true true
  refine ⟨?_, h.2.2 (by rw [hv]; simp) rfl, by rw [hv]; simp⟩
  have hns : ¬(run_import [] 0 "test_klein_gueltig.xlsx"
      (ReadResult.ok (List.replicate 10 row_ok)) true true).report.isSome := by
    rw [h.1, he]
    simp
  rw [← Option.not_isSome_iff_eq_none]
  exact hns

/-- C7 counterexample: a run whose input is readable with all required
columns, whose connection and batch write both work, but whose rows are
all rejected: the claim calls this a successful "nothing to import"
outcome, yet the code reports failure. -/
theorem C7_counterexample :
    (run_import [] 0 "leitungen.xlsx" (ReadResult.ok [row_bad_coord])
      true true).success = false := by
  with_unfolding_all rfl

/-- C7 (amended): a run reports success exactly when the input was
readable with all required columns, at least one row validated, the
persistence connection was established, and the batch write succeeded;
in particular a run with zero valid rows reports failure (it is not a
successful "nothing to import" outcome). -/
theorem C7_amended (errs0 : List ErrorInfo) (now : ℕ) (path : String)
    (read : ReadResult) (connectOk writeOk : Bool) :
    (run_import errs0 now path read connectOk writeOk).success = true ↔
      ∃ df, read = ReadResult.ok df ∧
        (process_records errs0 now df).1 ≠ [] ∧
        connectOk = true ∧ writeOk = true := by
  cases read with
  | fail => simp [run_import]
  | ok df =>
    unfold run_import
    by_cases hv : (process_records errs0 now df).1.isEmpty
    · rw [List.isEmpty_iff] at hv
      simp [hv]
    · rw [List.isEmpty_iff] at hv
      cases connectOk <;> simp [hv]

/-- C8 counterexample: two consecutive `run_import` calls on the same
importer.  Run 1 (one invalid row) leaves one error in the accumulator;
run 2 (one valid and one different invalid row) starts from that state,
and its final accumulator — and its written error report — contain
run 1's error followed by run 2's, so errors are carried over across
runs, contradicting "reset per invocation". -/
theorem C8_counterexample :
    (run_import
        (run_import init_error_records 0 "lauf1.xlsx"
          (ReadResult.ok [row_bad_coord]) true true).final_errors
        0 "lauf2.xlsx" (ReadResult.ok [row_ok, row_bad_date])
        true true).final_errors =
      [⟨2, CellVal.str "L_ERR01", Err.startpunkt (Msg.xOutside (some 1000000))⟩,
       ⟨3, CellVal.str "L_ERR04", Err.dateErr (CellVal.str "32.13.2020")⟩] ∧
    Option.map Report.rows
      (run_import
        (run_import init_error_records 0 "lauf1.xlsx"
          (ReadResult.ok [row_bad_coord]) true true).final_errors
        0 "lauf2.xlsx" (ReadResult.ok [row_ok, row_bad_date])
        true true).report =
      some
        [⟨2, CellVal.str "L_ERR01", Err.startpunkt (Msg.xOutside (some 1000000))⟩,
         ⟨3, CellVal.str "L_ERR04", Err.dateErr (CellVal.str "32.13.2020")⟩] :=
  ⟨by with_unfolding_all rfl, by with_unfolding_all rfl⟩

/-- C8 (amended): the accumulator is created empty only at importer
construction (`__init__`); `run_import` itself never resets it — every
run's final accumulator extends the state it started from — so a run
starts with an empty accumulator exactly when it runs on a freshly
constructed importer, and errors of an earlier run on the same importer
are carried into later runs. -/
theorem C8_amended (errs0 : List ErrorInfo) (now : ℕ) (path : String)
    (read : ReadResult) (connectOk writeOk : Bool) :
    init_error_records = [] ∧
    ∃ tail, (run_import errs0 now path read connectOk
      writeOk).final_errors = errs0 ++ tail := by
  refine ⟨rfl, ?_⟩
  cases read with
  | fail => exact ⟨[], by simp [run_import]⟩
  | ok df =>
    refine ⟨(process_go now 0 df).2, ?_⟩
    unfold run_import process_records
    by_cases hv : (process_go now 0 df).1.isEmpty <;>
      cases connectOk <;> simp [hv]

/-- C9: constructing the two-vertex line geometry from
(x1,y1)-(x2,y2), serializing it to well-known text and re-parsing
yields the original two vertices in the original (start, end) order —
nothing between construction and serialization normalizes, sorts or
swaps the vertices. -/
theorem C9_roundtrip (x1 y1 x2 y2 : ℚ) (l : Line)
    (h : create_line_geometry (some x1) (some y1) (some x2) (some y2) =
      Except.ok l) :
    parse_linestring (line_wkt l) = some [(x1, y1), (x2, y2)] := by
  have hl : l = ⟨(some x1, some y1), (some x2, some y2)⟩ := by
    unfold create_line_geometry at h
    dsimp only at h
    split at h
    · cases h
    · split at h
      · cases h
      · split at h
        · cases h
        · cases h
          rfl
  rw [hl]
  rfl

/-- C9 witness: the Scenario A endpoints round-trip through the WKT
serialization in order. -/
theorem C9_roundtrip_witness :
    parse_linestring (line_wkt
      ⟨(some 2683000, some 1248000), (some 2683100, some 1248100)⟩) =
      some [(2683000, 1248000), (2683100, 1248100)] :=
  C9_roundtrip 2683000 1248000 2683100 1248100 _
    (by with_unfolding_all rfl)

end Werkleitung
